import Mathlib

/-!
Shallow embedding of the BSC wallet monitoring bot (src/main.py) and proofs
about its chain-activity detection engine: the block scanner
(`monitor_new_blocks`), per-transaction processing (`process_transaction`),
the deduplication ledger (`SimpleDB.mark_processed` / `SimpleDB.is_processed`),
the balance reader (`get_balance`) and the price cache (`get_token_prices`).

Modelling conventions:
* RPC and HTTP calls are pure parameters: a fallible call is an `Option` or a
  dedicated outcome type, `none` standing for a raised exception.
* Python integers are `Nat`; quantities computed by Python's `/` on integers
  are modelled as the exact rational quotient in `ℚ` (Python performs
  correctly-rounded binary64 division of the same rational value).
* `SimpleDB.processed_txs` is a Python `set`, whose iteration order is
  unspecified.  The state is modelled as a duplicate-free `List` holding the
  set's elements in iteration order; `set.add` may place the new element at
  any position of that order, so insertion takes an extra position argument.
* Addresses and transaction hashes are strings, compared after `.lower()`
  exactly as in the source.
-/

set_option autoImplicit false

namespace BscBot

/-- Python's `str.lower()` on one character, for the ASCII range in which
addresses and hex hashes live. -/
def lower_char (c : Char) : Char :=
  if c.isUpper then Char.ofNat (c.toNat + 32) else c

/-- Python's `str.lower()`, as applied throughout src/main.py to addresses
(ASCII hex strings): lowercase every character. -/
def lower (s : String) : String :=
  ⟨s.data.map lower_char⟩

/-- Static token configuration.  Mirrors the per-token dictionaries of the
`TOKENS` table of src/main.py (symbol, optional contract address, decimal
precision, optional CoinGecko id). -/
structure TokenInfo where
  symbol : String
  address : Option String
  decimals : Nat
  coingecko_id : Option String
deriving DecidableEq

/-- The `TOKENS` table of src/main.py (lines 36-62), in source order. -/
def TOKENS : List TokenInfo :=
  [ ⟨"BNB", none, 18, some "binancecoin"⟩,
    ⟨"USDT", some "0x55d398326f99059fF775485246999027B3197955", 18, some "tether"⟩,
    ⟨"USDC", some "0x8AC76a51cc950d9822D68b83fE1Ad97B32Cd580d", 18, some "usd-coin"⟩,
    ⟨"BTCB", some "0x7130d2A12B9BCbFAe4f2634d864A1Ee1Ce3Ead9c", 18, some "bitcoin"⟩,
    ⟨"MEC", some "0x9a79D9C9e521cb900D2584c74bb41997EB7BF49f", 18, none⟩ ]

/-- A watched wallet as stored by `SimpleDB.add_wallet` (lines 167-182):
address, display name, and the block height at which watching began. -/
structure Wallet where
  address : String
  name : String
  last_block : Nat
deriving DecidableEq

/-- A transaction as returned by `w3.eth.get_transaction` / carried in a full
block: hash (hex string), sender, optional recipient (`tx['to']` may be
`None` for contract creation), and native value in wei. -/
structure TxData where
  hash : String
  from_addr : String
  to_addr : Option String
  value : Nat
deriving DecidableEq

/-- One decoded ERC-20 `Transfer` event, as produced by
`contract.events.Transfer().process_receipt(tx_receipt)`: the token whose
contract emitted the log (identified by its symbol, since the `TOKENS`
table is injective on contract addresses), the decoded `from` and `to`
addresses, and the raw integer `value`. -/
structure TokenTransfer where
  token : String
  from_addr : String
  to_addr : String
  value : Nat
deriving DecidableEq

/-- A transaction receipt: its status (0 = failed) and the decoded
`Transfer` logs it contains. -/
structure Receipt where
  status : Nat
  logs : List TokenTransfer
deriving DecidableEq

/-- The data recorded for one attempted notification, i.e. the arguments of
`send_transaction_alert` (lines 383-418).  Delivery failures are logged and
ignored by the source, so an element of this type stands for one emitted
notification. -/
structure Alert where
  wallet_name : String
  wallet_address : String
  token_symbol : String
  amount : ℚ
  direction : String
  from_addr : String
  to_addr : String
  tx_hash : String
deriving DecidableEq

/-- `SimpleDB.mark_processed` (lines 197-201): add the hash to the
`processed_txs` set, then, if the set now holds more than 10000 entries,
replace it by `set(list(self.processed_txs)[-5000:])`, the last 5000
elements of its iteration order.  The state is the set as a list in
iteration order; `k` is the (unspecified) position at which Python's
`set.add` places the new element in that order. -/
def mark_processed {α : Type} [DecidableEq α] (processed_txs : List α)
    (tx_hash : α) (k : Nat) : List α :=
  let added :=
    if tx_hash ∈ processed_txs then processed_txs
    else processed_txs.insertIdx (min k processed_txs.length) tx_hash
  if 10000 < added.length then added.drop (added.length - 5000) else added

/-- `SimpleDB.is_processed` (lines 203-204): membership in `processed_txs`. -/
@[reducible] def is_processed {α : Type} [DecidableEq α]
    (processed_txs : List α) (tx_hash : α) : Prop :=
  tx_hash ∈ processed_txs

/-- The structured blob written by `SimpleDB.save` (lines 157-165): the
persisted state holds exactly the wallet list and the processed-transaction
set — and nothing else; in particular no scan cursor. -/
structure PersistedData where
  wallets : List Wallet
  processed_txs : List String
deriving DecidableEq

/-- `SimpleDB.save` (lines 157-165). -/
def SimpleDB.save (wallets : List Wallet) (processed_txs : List String) :
    PersistedData :=
  ⟨wallets, processed_txs⟩

/-- `SimpleDB.load` (lines 147-155): restores the wallet list and the
processed-transaction set from the persisted blob. -/
def SimpleDB.load (d : PersistedData) : List Wallet × List String :=
  (d.wallets, d.processed_txs)

/-- Outcome of one balance query inside `get_balance` (lines 208-225):
either `Web3.to_checksum_address` raised on the input address, an RPC or
contract call raised, or the raw integer balance was obtained (wei for the
native-currency branch, raw token units for the `balanceOf` branch). -/
inductive BalanceQuery where
  | invalidAddress
  | rpcError
  | nativeWei (wei : Nat)
  | tokenRaw (raw : Nat)
deriving DecidableEq

/-- `get_balance` (lines 208-225): any raised exception is caught and `0.0`
is returned; otherwise the raw balance is scaled by the asset's decimal
precision (`w3.from_wei(·, 'ether')` for BNB, `/ 10**decimals` for tokens).
An unknown token symbol raises `KeyError` on the `TOKENS` lookup, which the
same handler turns into `0.0`. -/
def get_balance (token_symbol : String) (q : BalanceQuery) : ℚ :=
  match q with
  | .invalidAddress => 0
  | .rpcError => 0
  | .nativeWei wei => (wei : ℚ) / 10 ^ 18
  | .tokenRaw raw =>
    match TOKENS.find? fun t => t.symbol == token_symbol with
    | some t => (raw : ℚ) / 10 ^ t.decimals
    | none => 0

/-- Outcome of the CoinGecko HTTP request inside `get_token_prices`:
a raised exception, or a response with an HTTP status and the parsed JSON
body `{coingecko_id: {"usd": price}}` as an association list. -/
inductive FetchOutcome where
  | error
  | response (status : Nat) (data : List (String × ℚ))
deriving DecidableEq

/-- `get_token_prices` (lines 88-132).  State is the pair
(`price_cache`, `price_cache_time`); `current_time` is the event-loop
clock.  Returns the mapping handed to the caller, the new cache state, and
whether the HTTP request was issued.  On an exception or a non-200 status
the previous cache is returned unchanged and no exception escapes. -/
def get_token_prices (price_cache : List (String × ℚ)) (price_cache_time : ℚ)
    (current_time : ℚ) (fetch : FetchOutcome) :
    List (String × ℚ) × (List (String × ℚ) × ℚ) × Bool :=
  if current_time - price_cache_time < 300 ∧ price_cache ≠ [] then
    (price_cache, (price_cache, price_cache_time), false)
  else
    let coin_ids := TOKENS.filterMap TokenInfo.coingecko_id
    if coin_ids = [] then ([], (price_cache, price_cache_time), false)
    else
      match fetch with
      | .error => (price_cache, (price_cache, price_cache_time), true)
      | .response status data =>
        if status = 200 then
          let new_cache := TOKENS.filterMap fun t =>
            match t.coingecko_id with
            | some cid => (data.lookup cid).map fun p => (t.symbol, p)
            | none => none
          (new_cache, (new_cache, current_time), true)
        else (price_cache, (price_cache, price_cache_time), true)

/-- The token alerts produced for one token's decoded `Transfer` events by
the ERC-20 loop of `process_transaction` (lines 483-539).  `wallet_address_lower`
is `wallet_address.lower()`; for each event, an `IN` alert is sent when the
decoded `to` equals the wallet, otherwise an `OUT` alert when the decoded
`from` equals the wallet; `amount = value / 10**decimals`. -/
def token_alerts_for (wallet_address_lower wallet_address wallet_name tx_hash : String)
    (t : TokenInfo) (events : List TokenTransfer) : List Alert :=
  events.filterMap fun e =>
    if lower e.to_addr = wallet_address_lower then
      some ⟨wallet_name, wallet_address, t.symbol, (e.value : ℚ) / 10 ^ t.decimals,
            "IN", e.from_addr, wallet_address, tx_hash⟩
    else if lower e.from_addr = wallet_address_lower then
      some ⟨wallet_name, wallet_address, t.symbol, (e.value : ℚ) / 10 ^ t.decimals,
            "OUT", wallet_address, e.to_addr, tx_hash⟩
    else none

/-- `process_transaction` (lines 420-557), as a function of the dedup state
and the RPC world.  `rpc` is the joint outcome of `w3.eth.get_transaction`
and `w3.eth.get_transaction_receipt` (`none` = either call raised; the
`except` handler at lines 554-557 then marks the hash processed "so as not
to loop").  Returns the alerts sent and the new `processed_txs` state; `k`
is the iteration-order position used by `mark_processed`. -/
def process_transaction (processed : List String)
    (tx_hash wallet_address wallet_name : String)
    (rpc : Option (TxData × Receipt)) (k : Nat) : List Alert × List String :=
  if is_processed processed tx_hash then ([], processed)
  else
    match rpc with
    | none => ([], mark_processed processed tx_hash k)
    | some (tx, tx_receipt) =>
      if tx_receipt.status = 0 then ([], mark_processed processed tx_hash k)
      else
        let wallet_address_lower := lower wallet_address
        let bnb_alerts : List Alert :=
          if 0 < tx.value then
            let from_addr := lower tx.from_addr
            let to_addr := (tx.to_addr.map lower).getD ""
            if to_addr = wallet_address_lower then
              [⟨wallet_name, wallet_address, "BNB", (tx.value : ℚ) / 10 ^ 18,
                "IN", tx.from_addr, wallet_address, tx_hash⟩]
            else if from_addr = wallet_address_lower then
              [⟨wallet_name, wallet_address, "BNB", (tx.value : ℚ) / 10 ^ 18,
                "OUT", wallet_address, tx.to_addr.getD "", tx_hash⟩]
            else []
          else []
        let token_alerts : List Alert :=
          (TOKENS.filter fun t => t.symbol != "BNB").flatMap fun t =>
            token_alerts_for wallet_address_lower wallet_address wallet_name tx_hash t
              (tx_receipt.logs.filter fun e => e.token == t.symbol)
        (bnb_alerts ++ token_alerts, mark_processed processed tx_hash k)

/-- Lookup in the `wallet_addresses` dictionary built at line 591:
`{w["address"].lower(): w for w in db.wallets}`.  A dict comprehension keeps
the last entry for a duplicated key, hence the reverse search. -/
def wallet_lookup (wallets : List Wallet) (a : String) : Option Wallet :=
  wallets.reverse.find? fun w => lower w.address == a

/-- The inner event scan of `monitor_new_blocks` (lines 626-635): walk the
decoded `Transfer` events of one token in order, returning the first watched
wallet appearing as the event's `from` (checked first) or `to`. -/
def find_wallet_in_events (wallets : List Wallet) :
    List TokenTransfer → Option Wallet
  | [] => none
  | e :: rest =>
    match wallet_lookup wallets (lower e.from_addr) with
    | some w => some w
    | none =>
      match wallet_lookup wallets (lower e.to_addr) with
      | some w => some w
      | none => find_wallet_in_events wallets rest

/-- The token loop of `monitor_new_blocks` (lines 622-640): iterate the
pre-built token contracts in `TOKENS` order, scanning each token's decoded
events; stop at the first wallet found. -/
def find_wallet_tokens (wallets : List Wallet) (r : Receipt) :
    List TokenInfo → Option Wallet
  | [] => none
  | t :: rest =>
    match find_wallet_in_events wallets (r.logs.filter fun e => e.token == t.symbol) with
    | some w => some w
    | none => find_wallet_tokens wallets r rest

/-- The RPC world of one transaction inside the scan loop: the transaction
itself (from the full block), the outcome of the receipt fetch at line 615
(`none` = raised, handled by `except: pass`), the joint outcome of the
fetches inside `process_transaction`, and the iteration-order position used
by any `mark_processed` call made for this transaction. -/
structure TxInput where
  tx : TxData
  receipt : Option Receipt
  full : Option (TxData × Receipt)
  k : Nat
deriving DecidableEq

/-- The body of the per-transaction loop of `monitor_new_blocks`
(lines 593-651): skip already-processed hashes; pick the involved wallet by
direct `from`/`to` membership, else (fetching the receipt) skip failed
transactions, else scan `Transfer` events; if a wallet was found, hand the
transaction to `process_transaction`. -/
def monitor_tx_step (wallets : List Wallet) (processed : List String)
    (ti : TxInput) : List Alert × List String :=
  if is_processed processed ti.tx.hash then ([], processed)
  else
    let tx_from := lower ti.tx.from_addr
    let tx_to := (ti.tx.to_addr.map lower).getD ""
    match wallet_lookup wallets tx_from with
    | some w => process_transaction processed ti.tx.hash w.address w.name ti.full ti.k
    | none =>
      match wallet_lookup wallets tx_to with
      | some w => process_transaction processed ti.tx.hash w.address w.name ti.full ti.k
      | none =>
        match ti.receipt with
        | none => ([], processed)
        | some r =>
          if r.status = 0 then ([], mark_processed processed ti.tx.hash ti.k)
          else
            match find_wallet_tokens wallets r (TOKENS.filter fun t => t.symbol != "BNB") with
            | some w => process_transaction processed ti.tx.hash w.address w.name ti.full ti.k
            | none => ([], processed)

/-- Initial value of the scan cursor (line 565):
`last_block = w3.eth.block_number`.  The cursor is a local variable of
`monitor_new_blocks`; it is not part of `PersistedData`, so after a restart
it is re-initialized to the chain head observed at startup. -/
def monitor_init_last_block (chain_head : Nat) : Nat := chain_head

/-- The block numbers scanned by one loop iteration (lines 579-583):
`range(last_block + 1, current_block + 1)` when `current_block > last_block`,
nothing otherwise. -/
def blocks_to_scan (last_block current_block : Nat) : List Nat :=
  if last_block < current_block then List.range' (last_block + 1) (current_block - last_block)
  else []

/-- The cursor after one loop iteration (lines 579-653): set to
`current_block` when new blocks were seen, unchanged otherwise. -/
def next_last_block (last_block current_block : Nat) : Nat :=
  if last_block < current_block then current_block else last_block

/-- All transactions of one block, folded through `monitor_tx_step`
(lines 593-651), accumulating alerts and threading the dedup state. -/
def monitor_block_step (wallets : List Wallet) (processed : List String)
    (txs : List TxInput) : List Alert × List String :=
  txs.foldl (fun acc ti =>
    let r := monitor_tx_step wallets acc.2 ti
    (acc.1 ++ r.1, r.2)) ([], processed)

/-- One iteration of the `while True` scan loop of `monitor_new_blocks`
(lines 575-655): process every transaction of every newly seen block in
ascending order, then advance the cursor.  `block_txs` maps a block number
to its transactions together with their RPC outcomes. -/
def monitor_step (wallets : List Wallet) (processed : List String)
    (last_block current_block : Nat) (block_txs : Nat → List TxInput) :
    List Alert × List String × Nat :=
  let scanned := (blocks_to_scan last_block current_block).foldl (fun acc b =>
    let r := monitor_block_step wallets acc.2 (block_txs b)
    (acc.1 ++ r.1, r.2)) ([], processed)
  (scanned.1, scanned.2, next_last_block last_block current_block)

/-- The block numbers scanned over a whole run of the loop, given the
sequence of chain heads observed at lines 577: each iteration scans
`blocks_to_scan` and advances the cursor by `next_last_block`. -/
def monitor_scanned : Nat → List Nat → List Nat
  | _, [] => []
  | last_block, c :: cs =>
    blocks_to_scan last_block c ++ monitor_scanned (next_last_block last_block c) cs

/-- The scanner's confirmation depth.  `monitor_new_blocks` processes blocks
up to and including the freshly read chain head (line 583), i.e. it applies
no confirmation lag: the depth determined by the code is zero, and
`safeHead = chainHead - confirmationDepth = chainHead`. -/
def confirmationDepth : Nat := 0

/-! ## Helper lemmas -/

/-- `insertIdx` at an index equal to the length appends at the end. -/
theorem insertIdx_of_eq_length {α : Type} (l : List α) (x : α) (n : Nat)
    (h : n = l.length) : l.insertIdx n x = l ++ [x] := by
  subst h
  exact List.insertIdx_length_self l x

/-- Every alert built by the token loop carries the wallet address the loop
was invoked for. -/
theorem token_alerts_for_wallet_address {wl wa wn th : String} {t : TokenInfo}
    {evs : List TokenTransfer} {a : Alert}
    (ha : a ∈ token_alerts_for wl wa wn th t evs) : a.wallet_address = wa := by
  rcases List.mem_filterMap.mp ha with ⟨e, _, hfe⟩
  split at hfe
  · cases hfe; rfl
  · split at hfe
    · cases hfe; rfl
    · cases hfe

/-- Every alert emitted by `process_transaction` carries the wallet address
it was invoked for: the function notifies for a single wallet. -/
theorem process_transaction_alert_wallet {p : List String} {th wa wn : String}
    {rpc : Option (TxData × Receipt)} {k : Nat} {a : Alert}
    (ha : a ∈ (process_transaction p th wa wn rpc k).1) : a.wallet_address = wa := by
  simp only [process_transaction] at ha
  split at ha
  · cases ha
  · split at ha
    · cases ha
    · split at ha
      · cases ha
      · rcases List.mem_append.mp ha with hb | ht
        · split at hb
          · split at hb
            · rcases List.mem_singleton.mp hb with rfl; rfl
            · split at hb
              · rcases List.mem_singleton.mp hb with rfl; rfl
              · cases hb
          · cases hb
        · rcases List.mem_flatMap.mp ht with ⟨t, _, hat⟩
          exact token_alerts_for_wallet_address hat

/-- When the transaction or receipt fetch raises, the exception handler of
`process_transaction` (lines 554-557) sends no alert. -/
theorem process_transaction_none_alerts (p : List String) (th wa wn : String) (k : Nat) :
    (process_transaction p th wa wn none k).1 = [] := by
  simp only [process_transaction]
  split <;> rfl

/-- A failed receipt (status 0) makes `process_transaction` send no alert
(lines 433-436). -/
theorem process_transaction_status0_alerts (p : List String) (th wa wn : String)
    (tx : TxData) (r : Receipt) (k : Nat) (hst : r.status = 0) :
    (process_transaction p th wa wn (some (tx, r)) k).1 = [] := by
  simp only [process_transaction, hst]
  split <;> rfl

/-- An already-processed hash makes `process_transaction` return immediately
(lines 425-426). -/
theorem process_transaction_processed {p : List String} {th : String} (wa wn : String)
    (rpc : Option (TxData × Receipt)) (k : Nat) (hp : is_processed p th) :
    process_transaction p th wa wn rpc k = ([], p) := by
  simp only [process_transaction, if_pos hp]

/-- If every receipt the `process_transaction` call can see has status 0,
no alert is sent, whatever the fetch outcome. -/
theorem process_transaction_full_alerts (p : List String) (th wa wn : String) (k : Nat)
    (rpc : Option (TxData × Receipt)) (hrpc : ∀ x, rpc = some x → x.2.status = 0) :
    (process_transaction p th wa wn rpc k).1 = [] := by
  cases rpc with
  | none => exact process_transaction_none_alerts p th wa wn k
  | some x =>
    obtain ⟨tx, r⟩ := x
    exact process_transaction_status0_alerts p th wa wn tx r k (hrpc (tx, r) rfl)

/-- One pass of the per-transaction loop either emits nothing or emits
alerts for a single wallet address. -/
theorem monitor_tx_step_alerts_attribution (w : List Wallet) (p : List String)
    (ti : TxInput) :
    (monitor_tx_step w p ti).1 = [] ∨
    ∃ addr, ∀ a ∈ (monitor_tx_step w p ti).1, a.wallet_address = addr := by
  simp only [monitor_tx_step]
  split
  · exact Or.inl rfl
  · split
    · exact Or.inr ⟨_, fun a ha => process_transaction_alert_wallet ha⟩
    · split
      · exact Or.inr ⟨_, fun a ha => process_transaction_alert_wallet ha⟩
      · split
        · exact Or.inl rfl
        · split
          · exact Or.inl rfl
          · split
            · exact Or.inr ⟨_, fun a ha => process_transaction_alert_wallet ha⟩
            · exact Or.inl rfl

/-- Marking a hash leaves it in the ledger provided the ledger held fewer
than 10000 entries before the call (so the truncation branch is not taken). -/
theorem mark_processed_mem_self {α : Type} [DecidableEq α] (l : List α) (h : α)
    (k : Nat) (hlen : l.length < 10000) : h ∈ mark_processed l h k := by
  have hmin : min k l.length ≤ l.length := Nat.min_le_right _ _
  simp only [mark_processed]
  by_cases hm : h ∈ l
  · simp only [if_pos hm]
    rw [if_neg (by omega)]
    exact hm
  · simp only [if_neg hm]
    rw [if_neg (by rw [List.length_insertIdx _ _ hmin]; omega)]
    exact (List.mem_insertIdx hmin).mpr (Or.inl rfl)

/-- A block number at or below the scanner's cursor is never scanned, over
any sequence of observed chain heads. -/
theorem monitor_scanned_not_mem {heads : List Nat} :
    ∀ {last_block b : Nat}, b ≤ last_block → b ∉ monitor_scanned last_block heads := by
  induction heads with
  | nil => intro _ _ _ h; cases h
  | cons c cs ih =>
    intro last_block b hble hmem
    rw [monitor_scanned] at hmem
    rcases List.mem_append.mp hmem with h1 | h2
    · rw [blocks_to_scan] at h1
      split at h1
      · rcases List.mem_range'_1.mp h1 with ⟨hge, _⟩; omega
      · cases h1
    · refine ih ?_ h2
      rw [next_last_block]
      split <;> omega

/-! ## Claims -/

/-- Claim C1, counterexample.  The claim states that a transaction whose
transfers involve two distinct watched wallets produces one notification per
(transaction, wallet) pair, and that the dedup ledger keys by the composite
(transaction, wallet).  Here a native transfer of 5 BNB goes from watched
wallet `0xaaa` to watched wallet `0xbbb`: the scan step emits exactly one
alert — the OUT alert for the sender — and records the bare transaction
hash `t1` in the ledger, so the recipient's IN alert is not emitted now and
a repeated scan of the same transaction emits nothing at all. -/
theorem claim_C1_counterexample :
    ((monitor_tx_step [⟨"0xaaa", "A", 100⟩, ⟨"0xbbb", "B", 100⟩] []
        ⟨⟨"t1", "0xaaa", some "0xbbb", 5000000000000000000⟩, some ⟨1, []⟩,
          some (⟨"t1", "0xaaa", some "0xbbb", 5000000000000000000⟩, ⟨1, []⟩), 0⟩).1.map
        Alert.wallet_address = ["0xaaa"]) ∧
    ((monitor_tx_step [⟨"0xaaa", "A", 100⟩, ⟨"0xbbb", "B", 100⟩] []
        ⟨⟨"t1", "0xaaa", some "0xbbb", 5000000000000000000⟩, some ⟨1, []⟩,
          some (⟨"t1", "0xaaa", some "0xbbb", 5000000000000000000⟩, ⟨1, []⟩), 0⟩).1.map
        Alert.direction = ["OUT"]) ∧
    ((monitor_tx_step [⟨"0xaaa", "A", 100⟩, ⟨"0xbbb", "B", 100⟩] []
        ⟨⟨"t1", "0xaaa", some "0xbbb", 5000000000000000000⟩, some ⟨1, []⟩,
          some (⟨"t1", "0xaaa", some "0xbbb", 5000000000000000000⟩, ⟨1, []⟩), 0⟩).2 = ["t1"]) ∧
    ((monitor_tx_step [⟨"0xaaa", "A", 100⟩, ⟨"0xbbb", "B", 100⟩] ["t1"]
        ⟨⟨"t1", "0xaaa", some "0xbbb", 5000000000000000000⟩, some ⟨1, []⟩,
          some (⟨"t1", "0xaaa", some "0xbbb", 5000000000000000000⟩, ⟨1, []⟩), 0⟩).1 = []) := by
  refine ⟨by decide, by decide, by decide, by decide⟩

/-- Claim C1, amended.  For each transaction the scan loop selects at most
one involved wallet (sender first, then recipient, then the first
`Transfer`-event participant), so all alerts of one scan step carry a single
wallet address; and the dedup ledger is keyed by the transaction hash alone,
so once the hash is recorded the step emits no alert for any wallet. -/
theorem claim_C1_amended (wallets : List Wallet) (processed : List String)
    (ti : TxInput) (a₁ a₂ : Alert) :
    (a₁ ∈ (monitor_tx_step wallets processed ti).1 →
      a₂ ∈ (monitor_tx_step wallets processed ti).1 →
      a₁.wallet_address = a₂.wallet_address) ∧
    (is_processed processed ti.tx.hash → (monitor_tx_step wallets processed ti).1 = []) := by
  constructor
  · intro h1 h2
    rcases monitor_tx_step_alerts_attribution wallets processed ti with hnil | ⟨addr, hall⟩
    · rw [hnil] at h1; cases h1
    · rw [hall a₁ h1, hall a₂ h2]
  · intro hp
    simp only [monitor_tx_step, if_pos hp]

/-- Claim C1, witness: the hypotheses of `claim_C1_amended` are satisfiable —
a processed hash yields an empty alert list, and the membership hypotheses
hold at a concrete scan producing one OUT alert. -/
theorem claim_C1_witness :
    ((monitor_tx_step [⟨"0xaaa", "A", 100⟩] ["t0"]
        ⟨⟨"t0", "0xaaa", none, 0⟩, none, none, 0⟩).1 = []) ∧
    ((⟨"A", "0xaaa", "BNB", ((5000000000000000000 : ℕ) : ℚ) / 10 ^ 18, "OUT",
        "0xaaa", "0xbbb", "t1"⟩ : Alert).wallet_address =
      (⟨"A", "0xaaa", "BNB", ((5000000000000000000 : ℕ) : ℚ) / 10 ^ 18, "OUT",
        "0xaaa", "0xbbb", "t1"⟩ : Alert).wallet_address) := by
  constructor
  · exact (claim_C1_amended [⟨"0xaaa", "A", 100⟩] ["t0"]
      ⟨⟨"t0", "0xaaa", none, 0⟩, none, none, 0⟩
      ⟨"", "", "", 0, "", "", "", ""⟩ ⟨"", "", "", 0, "", "", "", ""⟩).2 (by decide)
  · have hl : (monitor_tx_step [⟨"0xaaa", "A", 100⟩, ⟨"0xbbb", "B", 100⟩] []
        ⟨⟨"t1", "0xaaa", some "0xbbb", 5000000000000000000⟩, some ⟨1, []⟩,
          some (⟨"t1", "0xaaa", some "0xbbb", 5000000000000000000⟩, ⟨1, []⟩), 0⟩).1 =
        [⟨"A", "0xaaa", "BNB", ((5000000000000000000 : ℕ) : ℚ) / 10 ^ 18, "OUT",
          "0xaaa", "0xbbb", "t1"⟩] := rfl
    refine (claim_C1_amended [⟨"0xaaa", "A", 100⟩, ⟨"0xbbb", "B", 100⟩] []
      ⟨⟨"t1", "0xaaa", some "0xbbb", 5000000000000000000⟩, some ⟨1, []⟩,
        some (⟨"t1", "0xaaa", some "0xbbb", 5000000000000000000⟩, ⟨1, []⟩), 0⟩ _ _).1 ?_ ?_ <;>
      (rw [hl]; exact List.mem_singleton_self _)

/-- Claim C2, counterexample.  The claim states that the cursor survives a
restart and that no event occurring while the process was down is skipped.
Concretely: the pre-crash cursor was 100, the chain head observed at restart
is 150, and an event sits in block 120 (mined during the downtime).  The
restarted scanner begins at `monitor_init_last_block 150 = 150`, and block
120 is never scanned over the subsequent iterations. -/
theorem claim_C2_counterexample :
    100 < 120 ∧ 120 ≤ 150 ∧
    120 ∉ monitor_scanned (monitor_init_last_block 150) [150, 160, 170] := by
  refine ⟨by norm_num, by norm_num, by decide⟩

/-- Claim C2, amended.  The persisted blob holds exactly the wallet list and
the processed-hash set (`SimpleDB.save`/`SimpleDB.load` round-trip on those
two fields); the scan cursor is not persisted: after a restart it is
re-initialized to the chain head observed at startup, and every block at or
below that head — including all blocks mined while the process was down —
is never scanned, so their events are skipped. -/
theorem claim_C2_amended (wallets : List Wallet) (processed : List String)
    (h b : Nat) (heads : List Nat) :
    SimpleDB.load (SimpleDB.save wallets processed) = (wallets, processed) ∧
    (b ≤ h → b ∉ monitor_scanned (monitor_init_last_block h) heads) :=
  ⟨rfl, fun hb => monitor_scanned_not_mem hb⟩

/-- Claim C2, witness: `claim_C2_amended` applied at a restart head of 150
and downtime block 120 over a concrete run of heads. -/
theorem claim_C2_witness :
    SimpleDB.load (SimpleDB.save [] []) = ([], []) ∧
    120 ∉ monitor_scanned (monitor_init_last_block 150) [151, 155] :=
  ⟨(claim_C2_amended [] [] 150 120 [151, 155]).1,
   (claim_C2_amended [] [] 150 120 [151, 155]).2 (by norm_num)⟩

/-- Claim C3: over one scanner iteration the cursor never decreases and is
never advanced past `chainHead - confirmationDepth` (the code's confirmation
depth is zero, so the safe head is the chain head itself); and when
`chainHead - confirmationDepth ≤ cursor` the iteration has no side effects:
no block is processed, no alert is emitted, the dedup state and the cursor
are unchanged. -/
theorem claim_C3_cursor (wallets : List Wallet) (processed : List String)
    (last_block current_block : Nat) (block_txs : Nat → List TxInput) :
    last_block ≤ (monitor_step wallets processed last_block current_block block_txs).2.2 ∧
    ((monitor_step wallets processed last_block current_block block_txs).2.2 = last_block ∨
      (monitor_step wallets processed last_block current_block block_txs).2.2 ≤
        current_block - confirmationDepth) ∧
    (current_block - confirmationDepth ≤ last_block →
      monitor_step wallets processed last_block current_block block_txs =
        ([], processed, last_block)) := by
  have h22 : (monitor_step wallets processed last_block current_block block_txs).2.2 =
      next_last_block last_block current_block := rfl
  refine ⟨?_, ?_, ?_⟩
  · rw [h22, next_last_block]
    split <;> omega
  · rw [h22, next_last_block, confirmationDepth]
    split
    · right; omega
    · left; rfl
  · intro hcl
    rw [confirmationDepth] at hcl
    have hnc : ¬ last_block < current_block := by omega
    simp [monitor_step, blocks_to_scan, next_last_block, if_neg hnc]

/-- Claim C3, witness: at cursor 5 and chain head 5 the iteration is a
no-op. -/
theorem claim_C3_witness :
    monitor_step [] [] 5 5 (fun _ => []) = ([], [], 5) :=
  (claim_C3_cursor [] [] 5 5 (fun _ => [])).2.2 (by decide)

/-- Claim C4, counterexample.  The claim states that eviction removes
entries older than the 24-hour retention window first and never removes an
entry younger than the window while an older entry remains.  Take a ledger
of 10000 entries whose iteration order ends with entry 9999, the only entry
older than the window (inserted at time 0; every other entry was inserted at
time 1000000, and "now" is 1000000, with an 86400-second window).  Marking
the fresh hash 10000 triggers the truncation `list(set)[-5000:]`: entry 0 —
aged 0 seconds, far younger than the window — is evicted while entry 9999 —
older than the window — survives. -/
theorem claim_C4_counterexample :
    let ledger := List.range 10000
    let evicted := mark_processed ledger 10000 10000
    let inserted_at : Nat → Nat := fun e => if e = 9999 then 0 else 1000000
    0 ∈ ledger ∧ 0 ∉ evicted ∧ 1000000 - inserted_at 0 < 86400 ∧
    9999 ∈ evicted ∧ 86400 < 1000000 - inserted_at 9999 := by
  have h1 : (10000 : ℕ) ∉ List.range 10000 := by simp
  have key : mark_processed (List.range 10000) 10000 10000 = List.range' 5001 5000 := by
    simp only [mark_processed, if_neg h1]
    rw [insertIdx_of_eq_length (List.range 10000) 10000 (min 10000 (List.range 10000).length)
      (by simp [List.length_range])]
    rw [← List.range_succ, List.length_range]
    rw [if_pos (by norm_num)]
    norm_num
    rw [List.range_eq_range']
    rw [show List.range' 0 10001 = List.range' 0 5001 ++ List.range' 5001 5000 by
      simpa using (List.range'_append 0 5001 5000 1).symm]
    exact List.drop_left' (by rw [List.length_range'])
  refine ⟨by simp, ?_, by norm_num, ?_, by norm_num⟩
  · rw [key]; simp [List.mem_range'_1]
  · rw [key]; simp [List.mem_range'_1]

/-- Claim C4, amended.  The ledger stores no timestamps, so eviction cannot
be time-ordered: when an insertion leaves the set above the 10000-entry
mark, `mark_processed` truncates it to the last 5000 elements of its
(unspecified) iteration order, regardless of any retention window.  What
holds is: the result never exceeds 10000 entries, it contains only
previously-present entries or the new hash, and whenever the ledger was
already above the mark the result has exactly 5000 entries. -/
theorem claim_C4_amended {α : Type} [DecidableEq α] (l : List α) (h : α) (k : Nat) :
    (mark_processed l h k).length ≤ 10000 ∧
    (∀ x ∈ mark_processed l h k, x ∈ l ∨ x = h) ∧
    (10000 < l.length → (mark_processed l h k).length = 5000) := by
  have hmin : min k l.length ≤ l.length := Nat.min_le_right _ _
  by_cases hm : h ∈ l
  · have heq : mark_processed l h k =
        if 10000 < l.length then l.drop (l.length - 5000) else l := by
      simp only [mark_processed, if_pos hm]
    rw [heq]
    by_cases hc : 10000 < l.length
    · rw [if_pos hc]
      refine ⟨?_, ?_, fun _ => ?_⟩
      · rw [List.length_drop]; omega
      · intro x hx
        exact Or.inl (List.mem_of_mem_drop hx)
      · rw [List.length_drop]; omega
    · rw [if_neg hc]
      exact ⟨by omega, fun x hx => Or.inl hx, fun hl => absurd hl hc⟩
  · have hlen2 : (l.insertIdx (min k l.length) h).length = l.length + 1 :=
      List.length_insertIdx _ _ hmin
    have hmem2 : ∀ x ∈ l.insertIdx (min k l.length) h, x ∈ l ∨ x = h := by
      intro x hx
      rcases (List.mem_insertIdx hmin).mp hx with h1 | h2
      · exact Or.inr h1
      · exact Or.inl h2
    have heq : mark_processed l h k =
        if 10000 < (l.insertIdx (min k l.length) h).length then
          (l.insertIdx (min k l.length) h).drop
            ((l.insertIdx (min k l.length) h).length - 5000)
        else l.insertIdx (min k l.length) h := by
      simp only [mark_processed, if_neg hm]
    rw [heq]
    by_cases hc : 10000 < (l.insertIdx (min k l.length) h).length
    · rw [if_pos hc]
      refine ⟨?_, ?_, fun _ => ?_⟩
      · rw [List.length_drop]; omega
      · intro x hx
        exact hmem2 x (List.mem_of_mem_drop hx)
      · rw [List.length_drop]; omega
    · rw [if_neg hc]
      refine ⟨by omega, hmem2, fun hl => absurd ?_ hc⟩
      omega

/-- Claim C4, witness: `claim_C4_amended` applied to a ledger already above
the high-water mark — marking truncates it to exactly 5000 entries. -/
theorem claim_C4_witness :
    (mark_processed (List.range 10001) 0 0).length = 5000 ∧
    (mark_processed (List.range 10001) 0 0).length ≤ 10000 :=
  ⟨(claim_C4_amended (List.range 10001) 0 0).2.2 (by rw [List.length_range]; norm_num),
   (claim_C4_amended (List.range 10001) 0 0).1⟩

/-- Claim C5, counterexample.  The claim states that `markSeen` followed by
`isSeen` returns true for every ledger state, including states at or above
the eviction threshold.  Take a ledger of exactly 10000 entries (the hashes
1..10000) and mark the fresh hash 0, which Python's unordered `set.add` may
place at the front of the iteration order: the insertion brings the set to
10001 entries, the truncation keeps only the last 5000 elements of the
iteration order, and the just-marked hash is evicted — `is_processed`
returns false immediately after `mark_processed`. -/
theorem claim_C5_counterexample :
    (List.range' 1 10000).length = 10000 ∧
    ¬ is_processed (mark_processed (List.range' 1 10000) 0 0) 0 := by
  have h0 : (0 : ℕ) ∉ List.range' 1 10000 := by simp [List.mem_range'_1]
  have key : mark_processed (List.range' 1 10000) 0 0 =
      List.drop 5000 (List.range' 1 10000) := by
    simp only [mark_processed, if_neg h0, Nat.zero_min, List.insertIdx_zero,
      List.length_cons, List.length_range']
    rw [if_pos (by norm_num)]
    norm_num [List.drop_succ_cons]
  refine ⟨by rw [List.length_range'], ?_⟩
  rw [is_processed, key]
  intro hmem
  exact h0 (List.mem_of_mem_drop hmem)

/-- Claim C5, amended.  `markSeen(t, w)` immediately followed by
`isSeen(t, w)` returns true — the ledger keys by the transaction hash alone,
so the wallet argument plays no role — provided the ledger held fewer than
10000 entries before the call.  At or above that size the insertion
triggers the truncation to an arbitrary 5000-element slice of the set's
iteration order, which may evict the just-marked entry. -/
theorem claim_C5_amended {α : Type} [DecidableEq α] (l : List α) (h : α) (k : Nat)
    (hlen : l.length < 10000) : is_processed (mark_processed l h k) h :=
  mark_processed_mem_self l h k hlen

/-- Claim C5, witness: `claim_C5_amended` at a small concrete ledger. -/
theorem claim_C5_witness : is_processed (mark_processed [1, 2] 5 0) 5 :=
  claim_C5_amended [1, 2] 5 0 (by norm_num)

/-- Claim C6, counterexample.  The claim states that after a transient RPC
failure while processing a transaction, the transaction is retried and a
notification is still possible once the call succeeds.  Concretely: the
fetches for `t6` raise (`rpc = none`), and the exception handler marks the
hash processed; when the transaction — an incoming 7 BNB transfer that
would have produced one alert had the first attempt succeeded — is seen
again with a working RPC, the dedup check returns immediately and no alert
is ever sent: the event is permanently dropped. -/
theorem claim_C6_counterexample :
    (process_transaction [] "t6" "0xaaa" "A" none 0 = ([], ["t6"])) ∧
    ((process_transaction ["t6"] "t6" "0xaaa" "A"
        (some (⟨"t6", "0xccc", some "0xaaa", 7000000000000000000⟩, ⟨1, []⟩)) 0).1 = []) ∧
    ((process_transaction [] "t6" "0xaaa" "A"
        (some (⟨"t6", "0xccc", some "0xaaa", 7000000000000000000⟩, ⟨1, []⟩)) 0).1.length = 1) := by
  refine ⟨by decide, by decide, by decide⟩

/-- Claim C6, amended.  An RPC failure inside `process_transaction` emits no
alert and deliberately marks the transaction processed ("so as not to
loop", lines 556-557); consequently, for a ledger below the high-water mark,
every later attempt on the same hash — with any RPC outcome — emits no
alert: the event is permanently dropped rather than retried. -/
theorem claim_C6_amended (processed : List String) (th wa wn : String)
    (rpc : Option (TxData × Receipt)) (k k2 : Nat) :
    (process_transaction processed th wa wn none k).1 = [] ∧
    (¬ is_processed processed th → processed.length < 10000 →
      (process_transaction (process_transaction processed th wa wn none k).2
        th wa wn rpc k2).1 = []) := by
  refine ⟨process_transaction_none_alerts processed th wa wn k, ?_⟩
  intro hnp hlen
  have h2 : (process_transaction processed th wa wn none k).2 =
      mark_processed processed th k := by
    simp only [process_transaction, if_neg hnp]
  rw [h2, process_transaction_processed wa wn rpc k2
    (mark_processed_mem_self processed th k hlen)]

/-- Claim C6, witness: `claim_C6_amended` at a concrete failed-then-healthy
RPC sequence. -/
theorem claim_C6_witness :
    (process_transaction [] "tw6" "0xaaa" "A" none 0).1 = [] ∧
    (process_transaction (process_transaction [] "tw6" "0xaaa" "A" none 0).2
      "tw6" "0xaaa" "A"
      (some (⟨"tw6", "0xccc", some "0xaaa", 7⟩, ⟨1, []⟩)) 3).1 = [] :=
  ⟨(claim_C6_amended [] "tw6" "0xaaa" "A"
      (some (⟨"tw6", "0xccc", some "0xaaa", 7⟩, ⟨1, []⟩)) 0 3).1,
   (claim_C6_amended [] "tw6" "0xaaa" "A"
      (some (⟨"tw6", "0xccc", some "0xaaa", 7⟩, ⟨1, []⟩)) 0 3).2
     (by decide) (by decide)⟩

/-- Claim C7, counterexample.  The claim states that the direction of a
token alert is OUT exactly when the wallet address is the `from` topic.
For a self-transfer the wallet is both the `from` and the `to` topic; the
code checks `to` first (line 506) and emits an IN alert, so the wallet is
the `from` topic while the direction is not OUT. -/
theorem claim_C7_counterexample :
    ((token_alerts_for "0xaaa" "0xaaa" "A" "t7"
        ⟨"USDT", some "0x55d398326f99059fF775485246999027B3197955", 18, some "tether"⟩
        [⟨"USDT", "0xaaa", "0xaaa", 2000000000000000000⟩]).map Alert.direction = ["IN"]) ∧
    lower "0xaaa" = "0xaaa" ∧ ("IN" : String) ≠ "OUT" := by
  refine ⟨by decide, by decide, by decide⟩

/-- Claim C7, amended.  Every token alert extracted from a `Transfer` event
carries the exact amount `value / 10^decimals` (the rational quotient; the
source computes its correctly-rounded binary64 image), and its direction is
IN exactly when the wallet is the decoded `to` address, and OUT exactly when
the wallet is the decoded `from` address and not the `to` address (a
self-transfer reports IN); conversely every event whose `to` is the wallet
produces its IN alert. -/
theorem claim_C7_amended (wl wa wn th : String) (t : TokenInfo)
    (evs : List TokenTransfer) :
    (∀ a ∈ token_alerts_for wl wa wn th t evs,
      ∃ e ∈ evs, a.amount = (e.value : ℚ) / 10 ^ t.decimals ∧
        (a.direction = "IN" ↔ lower e.to_addr = wl) ∧
        (a.direction = "OUT" ↔ (lower e.from_addr = wl ∧ ¬ lower e.to_addr = wl))) ∧
    (∀ e ∈ evs, lower e.to_addr = wl →
      (⟨wn, wa, t.symbol, (e.value : ℚ) / 10 ^ t.decimals, "IN", e.from_addr, wa, th⟩ :
        Alert) ∈ token_alerts_for wl wa wn th t evs) := by
  constructor
  · intro a ha
    rcases List.mem_filterMap.mp ha with ⟨e, he, hfe⟩
    refine ⟨e, he, ?_⟩
    split at hfe
    · rename_i hto
      cases hfe
      refine ⟨rfl, ⟨fun _ => hto, fun _ => rfl⟩,
        ⟨fun hod => absurd (show ("IN" : String) = "OUT" from hod) (by decide),
          fun hc => absurd hto hc.2⟩⟩
    · rename_i hto
      split at hfe
      · rename_i hfrom
        cases hfe
        exact ⟨rfl, ⟨fun hid => absurd (show ("OUT" : String) = "IN" from hid) (by decide),
          fun hc => absurd hc hto⟩, ⟨fun _ => ⟨hfrom, hto⟩, fun _ => rfl⟩⟩
      · cases hfe
  · intro e he hto
    exact List.mem_filterMap.mpr ⟨e, he, by rw [if_pos hto]⟩

/-- Claim C7, witness: `claim_C7_amended` applied to a concrete incoming
USDT transfer of 2 tokens. -/
theorem claim_C7_witness :
    ((⟨"B", "0xbbb", "USDT", ((2000000000000000000 : ℕ) : ℚ) / 10 ^ 18, "IN",
        "0xccc", "0xbbb", "t7w"⟩ : Alert) ∈
      token_alerts_for "0xbbb" "0xbbb" "B" "t7w"
        ⟨"USDT", some "0x55d398326f99059fF775485246999027B3197955", 18, some "tether"⟩
        [⟨"USDT", "0xccc", "0xbbb", 2000000000000000000⟩]) ∧
    (∃ e ∈ [(⟨"USDT", "0xccc", "0xbbb", 2000000000000000000⟩ : TokenTransfer)],
      (⟨"B", "0xbbb", "USDT", ((2000000000000000000 : ℕ) : ℚ) / 10 ^ 18, "IN",
        "0xccc", "0xbbb", "t7w"⟩ : Alert).amount = (e.value : ℚ) / 10 ^ 18 ∧
      ((⟨"B", "0xbbb", "USDT", ((2000000000000000000 : ℕ) : ℚ) / 10 ^ 18, "IN",
        "0xccc", "0xbbb", "t7w"⟩ : Alert).direction = "IN" ↔ lower e.to_addr = "0xbbb") ∧
      ((⟨"B", "0xbbb", "USDT", ((2000000000000000000 : ℕ) : ℚ) / 10 ^ 18, "IN",
        "0xccc", "0xbbb", "t7w"⟩ : Alert).direction = "OUT" ↔
        (lower e.from_addr = "0xbbb" ∧ ¬ lower e.to_addr = "0xbbb"))) := by
  have hmem := (claim_C7_amended "0xbbb" "0xbbb" "B" "t7w"
      ⟨"USDT", some "0x55d398326f99059fF775485246999027B3197955", 18, some "tether"⟩
      [⟨"USDT", "0xccc", "0xbbb", 2000000000000000000⟩]).2
    ⟨"USDT", "0xccc", "0xbbb", 2000000000000000000⟩ (List.mem_singleton_self _) (by decide)
  exact ⟨hmem, (claim_C7_amended "0xbbb" "0xbbb" "B" "t7w"
      ⟨"USDT", some "0x55d398326f99059fF775485246999027B3197955", 18, some "tether"⟩
      [⟨"USDT", "0xccc", "0xbbb", 2000000000000000000⟩]).1 _ hmem⟩

/-- Claim C8: a transaction whose receipt has failure status produces no
event at all — neither from `process_transaction` (which checks the status
before both the native branch and the token loop, lines 433-436) nor from
the scan loop (whose only alert source is `process_transaction`;
its own receipt check at lines 617-619 only marks and skips). -/
theorem claim_C8_failed_status (processed : List String) (th wa wn : String)
    (tx : TxData) (r : Receipt) (k : Nat) (wallets : List Wallet) (ti : TxInput) :
    (r.status = 0 → (process_transaction processed th wa wn (some (tx, r)) k).1 = []) ∧
    ((∀ x, ti.full = some x → x.2.status = 0) →
      (monitor_tx_step wallets processed ti).1 = []) := by
  constructor
  · exact process_transaction_status0_alerts processed th wa wn tx r k
  · intro hfull
    simp only [monitor_tx_step]
    split
    · rfl
    · split
      · exact process_transaction_full_alerts _ _ _ _ _ _ hfull
      · split
        · exact process_transaction_full_alerts _ _ _ _ _ _ hfull
        · split
          · rfl
          · split
            · rfl
            · split
              · exact process_transaction_full_alerts _ _ _ _ _ _ hfull
              · rfl

/-- Claim C8, witness: a failed transaction (status 0) with nonzero value
sent from a watched wallet produces no alert, both through
`process_transaction` directly and through the scan loop. -/
theorem claim_C8_witness :
    (process_transaction [] "t8" "0xaaa" "A"
      (some (⟨"t8", "0xccc", some "0xaaa", 5⟩, ⟨0, []⟩)) 0).1 = [] ∧
    (monitor_tx_step [⟨"0xaaa", "A", 100⟩] []
      ⟨⟨"t8", "0xaaa", some "0xbbb", 5⟩, some ⟨0, []⟩,
        some (⟨"t8", "0xaaa", some "0xbbb", 5⟩, ⟨0, []⟩), 0⟩).1 = [] :=
  ⟨(claim_C8_failed_status [] "t8" "0xaaa" "A" ⟨"t8", "0xccc", some "0xaaa", 5⟩ ⟨0, []⟩ 0
      [] ⟨⟨"t8", "0xaaa", some "0xbbb", 5⟩, none, none, 0⟩).1 rfl,
   (claim_C8_failed_status [] "t8" "0xaaa" "A" ⟨"t8", "0xccc", some "0xaaa", 5⟩ ⟨0, []⟩ 0
      [⟨"0xaaa", "A", 100⟩]
      ⟨⟨"t8", "0xaaa", some "0xbbb", 5⟩, some ⟨0, []⟩,
        some (⟨"t8", "0xaaa", some "0xbbb", 5⟩, ⟨0, []⟩), 0⟩).2
     (fun x hx => by cases hx; rfl)⟩

/-- Claim C9, counterexample.  The claim states that `prices()` refreshes
only when the cache is older than 5 minutes.  A 200 response whose body
lacks every tracked id (here at time 400) replaces the cache by an empty
map with a fresh timestamp; a call 20 seconds later — the cached result is
20 seconds old, far younger than 5 minutes — nevertheless issues the HTTP
request again, because the code also refreshes whenever the cache is empty
(`and price_cache`, line 95). -/
theorem claim_C9_counterexample :
    ((get_token_prices [("BNB", 2)] 0 400 (FetchOutcome.response 200 [])).2.1 = ([], 400)) ∧
    ((get_token_prices [] 400 420 (FetchOutcome.response 200 [("binancecoin", 5)])).2.2
      = true) ∧
    (420 : ℚ) - 400 < 300 := by
  refine ⟨?_, ?_, by norm_num⟩
  · norm_num [get_token_prices, TOKENS, List.lookup]
    simp
  · norm_num [get_token_prices, TOKENS]
    simp

/-- Claim C9, amended.  `get_token_prices` issues the HTTP request only when
the cache is at least 5 minutes old or empty; and whenever the fetch raises
or returns a non-200 status, the previously cached map is returned unchanged
with an unchanged cache state, and no exception reaches the caller (the
function is total). -/
theorem claim_C9_amended (cache : List (String × ℚ)) (ctime now : ℚ)
    (f : FetchOutcome) :
    ((get_token_prices cache ctime now f).2.2 = true → 300 ≤ now - ctime ∨ cache = []) ∧
    (∀ s d, f = FetchOutcome.error ∨ (f = FetchOutcome.response s d ∧ s ≠ 200) →
      (get_token_prices cache ctime now f).1 = cache ∧
      (get_token_prices cache ctime now f).2.1 = (cache, ctime)) := by
  have hids : ¬ (TOKENS.filterMap TokenInfo.coingecko_id = []) := by decide
  constructor
  · intro hfetch
    by_cases hfresh : now - ctime < 300 ∧ cache ≠ []
    · simp only [get_token_prices, if_pos hfresh] at hfetch
      exact absurd hfetch (by decide)
    · rcases not_and_or.mp hfresh with h1 | h2
      · exact Or.inl (le_of_not_lt h1)
      · exact Or.inr (not_not.mp h2)
  · intro s d hf
    by_cases hfresh : now - ctime < 300 ∧ cache ≠ []
    · simp only [get_token_prices, if_pos hfresh]
      exact ⟨trivial, trivial⟩
    · rcases hf with rfl | ⟨rfl, hs⟩
      · simp only [get_token_prices, if_neg hfresh, if_neg hids]
        exact ⟨trivial, trivial⟩
      · simp only [get_token_prices, if_neg hfresh, if_neg hids, if_neg hs]
        exact ⟨trivial, trivial⟩

/-- Claim C9, witness: `claim_C9_amended` at a stale cache and a raising
fetch — the caller receives the previous cache unchanged — and at the same
inputs the fetch-only-when-stale conclusion instantiated through a real
fetch. -/
theorem claim_C9_witness :
    ((get_token_prices [("BNB", 2)] 0 1000 FetchOutcome.error).1 = [("BNB", 2)]) ∧
    ((get_token_prices [("BNB", 2)] 0 1000 FetchOutcome.error).2.1 = ([("BNB", 2)], 0)) ∧
    (300 ≤ (1000 : ℚ) - 0 ∨ ([(("BNB" : String), (2 : ℚ))] : List (String × ℚ)) = []) :=
  ⟨((claim_C9_amended [("BNB", 2)] 0 1000 FetchOutcome.error).2 0 [] (Or.inl rfl)).1,
   ((claim_C9_amended [("BNB", 2)] 0 1000 FetchOutcome.error).2 0 [] (Or.inl rfl)).2,
   (claim_C9_amended [("BNB", 2)] 0 1000 FetchOutcome.error).1
     (by norm_num [get_token_prices, TOKENS]; simp)⟩

/-- Claim C10: `get_balance` returns 0 for every failure — an unparseable
address, a raised RPC or contract call — and never raises (it is a total
function), so a failed lookup is indistinguishable from a genuinely zero
balance: the same 0 that a zero-wei native query or a zero-unit token query
produces, and it is this value that `send_transaction_alert` embeds in the
"new balance" line of the alert message. -/
theorem claim_C10_zero_on_failure (sym : String) :
    get_balance sym BalanceQuery.invalidAddress = 0 ∧
    get_balance sym BalanceQuery.rpcError = 0 ∧
    get_balance sym (BalanceQuery.nativeWei 0) = 0 ∧
    get_balance sym (BalanceQuery.tokenRaw 0) = 0 := by
  refine ⟨rfl, rfl, by simp [get_balance], ?_⟩
  simp only [get_balance]
  split
  · simp
  · rfl

end BscBot
